import Mathlib

/-!
# Compute-stage resource binding and dispatch recording

A shallow embedding of `src/compute.cpp` (class `VulkanApplication`):

* `createComputeDescriptorSetLayout` : the binding layout of the compute program,
* `createComputeDescriptorPool`      : the descriptor pool sized from `MAX_FRAMES_IN_FLIGHT`,
* `createComputeDescriptorSets`      : allocation and population of one set per frame,
* `createComputePipeline`            : pipeline layout + compute pipeline from a shader module,
* `recordComputeCommandBuffer`       : begin, bind pipeline, bind set, dispatch, end.

Conventions of the embedding.

* Handles (`VkBuffer`, `VkDescriptorSet`, ...) are natural numbers, `VK_NULL_HANDLE = 0`.
* A `uint32_t` result that the source computes is a natural number reduced modulo `2^32`:
  `static_cast<uint32_t>(x)` is `u32 x`, a product of two `uint32_t` is `u32mul`.
* `throw std::runtime_error(msg)` is the value `some e` in the first component of the
  result, `e : RuntimeError` carrying the message; what the function did to the
  application object and to the device before throwing is the second component.
* The Vulkan driver is an external collaborator.  Calls whose only observable effect for
  the host code is a `VkResult` and an out-parameter are fields of `Driver` and
  `PipelineDriver`, so every theorem holds for whatever the driver answers; the three
  pieces of device state the properties talk about are modelled explicitly: the contents
  of the descriptor sets (`DescriptorState`, Vulkan semantics of `vkUpdateDescriptorSets`),
  the shader modules created and not yet destroyed (`LiveShaderModules`), and the command
  buffer with its states Initial, Recording, Ended (`CommandBuffer`, from spec 4.5).
* Declarations of `vulkanApplication.h` that the source uses but does not contain
  (`MAX_FRAMES_IN_FLIGHT`, the sizes of `RTParams`, `RTSphere`, `RTBlackhole`) are the
  fields of `Config`.
-/

namespace VulkanCompute

/-! ## Machine integers and handles -/

/-- Number of values of a C++ uint32_t. -/
def UINT32_RANGE : Nat := 4294967296

/-- The conversion static_cast<uint32_t>(n) of a non-negative integer n. -/
def u32 (n : Nat) : Nat := n % UINT32_RANGE

/-- Product of two uint32_t values, as C++ computes it (modulo 2^32). -/
def u32mul (a b : Nat) : Nat := (a * b) % UINT32_RANGE

/-- A Vulkan uint32_t field that is an input of the host code. -/
abbrev uint32_t := Fin 4294967296

abbrev VkHandle := Nat
abbrev VkDevice := VkHandle
abbrev VkBuffer := VkHandle
abbrev VkImageView := VkHandle
abbrev VkSampler := VkHandle
abbrev VkDescriptorSetLayout := VkHandle
abbrev VkDescriptorPool := VkHandle
abbrev VkDescriptorSet := VkHandle
abbrev VkPipelineLayout := VkHandle
abbrev VkPipeline := VkHandle
abbrev VkShaderModule := VkHandle

def VK_NULL_HANDLE : VkHandle := 0

/-- Vulkan result codes; VK_SUCCESS is 0, errors are negative. -/
abbrev VkResult := Int

def VK_SUCCESS : VkResult := 0
def VK_ERROR_OUT_OF_HOST_MEMORY : VkResult := -1
def VK_ERROR_OUT_OF_DEVICE_MEMORY : VkResult := -2
def VK_ERROR_OUT_OF_POOL_MEMORY : VkResult := -1000069000
def VK_ERROR_UNKNOWN : VkResult := -13

/-! ## Vulkan enumerations used by the source -/

/-- The core descriptor types of VkDescriptorType, in the order of their values 0..10. -/
inductive VkDescriptorType where
  | VK_DESCRIPTOR_TYPE_SAMPLER
  | VK_DESCRIPTOR_TYPE_COMBINED_IMAGE_SAMPLER
  | VK_DESCRIPTOR_TYPE_SAMPLED_IMAGE
  | VK_DESCRIPTOR_TYPE_STORAGE_IMAGE
  | VK_DESCRIPTOR_TYPE_UNIFORM_TEXEL_BUFFER
  | VK_DESCRIPTOR_TYPE_STORAGE_TEXEL_BUFFER
  | VK_DESCRIPTOR_TYPE_UNIFORM_BUFFER
  | VK_DESCRIPTOR_TYPE_STORAGE_BUFFER
  | VK_DESCRIPTOR_TYPE_UNIFORM_BUFFER_DYNAMIC
  | VK_DESCRIPTOR_TYPE_STORAGE_BUFFER_DYNAMIC
  | VK_DESCRIPTOR_TYPE_INPUT_ATTACHMENT
  deriving DecidableEq, Repr

open VkDescriptorType

/-- The structure-type tags the source writes into sType fields. -/
inductive VkStructureType where
  | VK_STRUCTURE_TYPE_DESCRIPTOR_SET_LAYOUT_CREATE_INFO
  | VK_STRUCTURE_TYPE_DESCRIPTOR_POOL_CREATE_INFO
  | VK_STRUCTURE_TYPE_DESCRIPTOR_SET_ALLOCATE_INFO
  | VK_STRUCTURE_TYPE_WRITE_DESCRIPTOR_SET
  | VK_STRUCTURE_TYPE_PIPELINE_SHADER_STAGE_CREATE_INFO
  | VK_STRUCTURE_TYPE_PIPELINE_LAYOUT_CREATE_INFO
  | VK_STRUCTURE_TYPE_COMPUTE_PIPELINE_CREATE_INFO
  | VK_STRUCTURE_TYPE_COMMAND_BUFFER_BEGIN_INFO
  deriving DecidableEq, Repr

open VkStructureType

/-- The core image layouts of VkImageLayout, in the order of their values 0..8. -/
inductive VkImageLayout where
  | VK_IMAGE_LAYOUT_UNDEFINED
  | VK_IMAGE_LAYOUT_GENERAL
  | VK_IMAGE_LAYOUT_COLOR_ATTACHMENT_OPTIMAL
  | VK_IMAGE_LAYOUT_DEPTH_STENCIL_ATTACHMENT_OPTIMAL
  | VK_IMAGE_LAYOUT_DEPTH_STENCIL_READ_ONLY_OPTIMAL
  | VK_IMAGE_LAYOUT_SHADER_READ_ONLY_OPTIMAL
  | VK_IMAGE_LAYOUT_TRANSFER_SRC_OPTIMAL
  | VK_IMAGE_LAYOUT_TRANSFER_DST_OPTIMAL
  | VK_IMAGE_LAYOUT_PREINITIALIZED
  deriving DecidableEq, Repr

open VkImageLayout

/-- Pipeline bind points of VkPipelineBindPoint. -/
inductive VkPipelineBindPoint where
  | VK_PIPELINE_BIND_POINT_GRAPHICS
  | VK_PIPELINE_BIND_POINT_COMPUTE
  deriving DecidableEq, Repr

open VkPipelineBindPoint

/-- A VkShaderStageFlags value: a bit mask, one bit per pipeline stage. -/
abbrev VkShaderStageFlags := Nat

def VK_SHADER_STAGE_VERTEX_BIT : VkShaderStageFlags := 0x00000001
def VK_SHADER_STAGE_TESSELLATION_CONTROL_BIT : VkShaderStageFlags := 0x00000002
def VK_SHADER_STAGE_TESSELLATION_EVALUATION_BIT : VkShaderStageFlags := 0x00000004
def VK_SHADER_STAGE_GEOMETRY_BIT : VkShaderStageFlags := 0x00000008
def VK_SHADER_STAGE_FRAGMENT_BIT : VkShaderStageFlags := 0x00000010
def VK_SHADER_STAGE_COMPUTE_BIT : VkShaderStageFlags := 0x00000020

/-- Position of the compute-stage bit inside a VkShaderStageFlags mask. -/
def COMPUTE_STAGE_BIT_INDEX : Nat := 5

/-! ## Errors thrown by the source -/

/-- The std::runtime_error values thrown in compute.cpp, one per throw statement;
`createShaderModule` and `readFile` live in another file and throw errors of their own. -/
inductive RuntimeError where
  | CREATE_COMPUTE_DESCRIPTOR_SET_LAYOUT_CREATION_FAILED
  | CREATE_COMPUTE_DESCRIPTOR_POOL_CREATION_FAILED
  | CREATE_COMPUTE_DESCRIPTOR_SETS_DESCRIPTOR_SETS_ALLOCATION_FAILED
  | CREATE_COMPUTE_PIPELINE_PIPELINE_LAYOUT_CREATION_FAILED
  | CREATE_COMPUTE_PIPELINE_PIPELINE_CREATION_FAILED
  | RECORD_COMPUTE_COMMAND_BUFFER_COMMAND_BUFFER_BEGIN_FAILED
  | RECORD_COMPUTE_COMMAND_BUFFER_COMMIT_FAILED
  | READ_FILE_FAILED
  | CREATE_SHADER_MODULE_FAILED
  deriving DecidableEq, Repr

open RuntimeError

/-- The message of each error, as written in the source. -/
def RuntimeError.what : RuntimeError → String
  | CREATE_COMPUTE_DESCRIPTOR_SET_LAYOUT_CREATION_FAILED =>
      "ERR::VULKAN::CREATE_COMPUTE_DESCRIPTOR_SET_LAYOUT::CREATION_FAILED"
  | CREATE_COMPUTE_DESCRIPTOR_POOL_CREATION_FAILED =>
      "ERR::VULKAN::CREATE_COMPUTE_DESCRIPTOR_POOL::CREATION_FAILED"
  | CREATE_COMPUTE_DESCRIPTOR_SETS_DESCRIPTOR_SETS_ALLOCATION_FAILED =>
      "ERR::VULKAN::CREATE_COMPUTE_DESCRIPTOR_SETS::DESCRIPTOR_SETS_ALLOCATION_FAILED"
  | CREATE_COMPUTE_PIPELINE_PIPELINE_LAYOUT_CREATION_FAILED =>
      "ERR::VULKAN::CREATE_COMPUTE_PIPELINE::PIPELINE_LAYOUT_CREATION_FAILED"
  | CREATE_COMPUTE_PIPELINE_PIPELINE_CREATION_FAILED =>
      "ERR::VULKAN::CREATE_COMPUTE_PIPELINE::PIPELINE_CREATION_FAILED"
  | RECORD_COMPUTE_COMMAND_BUFFER_COMMAND_BUFFER_BEGIN_FAILED =>
      "ERR::VULKAN::RECORD_COMPUTE_COMMAND_BUFFER::COMMAND_BUFFER_BEGIN_FAILED"
  | RECORD_COMPUTE_COMMAND_BUFFER_COMMIT_FAILED =>
      "ERR::VULKAN::RECORD_COMPUTE_COMMAND_BUFFER::COMMIT_FAILED"
  | READ_FILE_FAILED => "readFile failed"
  | CREATE_SHADER_MODULE_FAILED => "createShaderModule failed"

/-! ## Vulkan structures filled in by the source -/

/-- One element of the layoutBindings array. -/
structure VkDescriptorSetLayoutBinding where
  binding : Nat
  descriptorType : VkDescriptorType
  descriptorCount : Nat
  stageFlags : VkShaderStageFlags
  pImmutableSamplers : Option VkSampler
  deriving DecidableEq, Repr

structure VkDescriptorSetLayoutCreateInfo where
  sType : VkStructureType
  bindingCount : Nat
  pBindings : List VkDescriptorSetLayoutBinding
  deriving DecidableEq, Repr

/-- One element of the poolSizes array. -/
structure VkDescriptorPoolSize where
  type : VkDescriptorType
  descriptorCount : Nat
  deriving DecidableEq, Repr

structure VkDescriptorPoolCreateInfo where
  sType : VkStructureType
  poolSizeCount : Nat
  pPoolSizes : List VkDescriptorPoolSize
  maxSets : Nat
  deriving DecidableEq, Repr

structure VkDescriptorSetAllocateInfo where
  sType : VkStructureType
  descriptorPool : VkDescriptorPool
  descriptorSetCount : Nat
  pSetLayouts : List VkDescriptorSetLayout
  deriving DecidableEq, Repr

structure VkDescriptorBufferInfo where
  buffer : VkBuffer
  offset : Nat
  range : Nat
  deriving DecidableEq, Repr

structure VkDescriptorImageInfo where
  sampler : VkSampler
  imageView : VkImageView
  imageLayout : VkImageLayout
  deriving DecidableEq, Repr

/-- A VkWriteDescriptorSet.  The pointers pImageInfo and pBufferInfo are the arrays
they point to: nullptr is the empty list, the address of one struct a list of one. -/
structure VkWriteDescriptorSet where
  sType : VkStructureType
  dstSet : VkDescriptorSet
  dstBinding : Nat
  dstArrayElement : Nat
  descriptorCount : Nat
  descriptorType : VkDescriptorType
  pImageInfo : List VkDescriptorImageInfo
  pBufferInfo : List VkDescriptorBufferInfo
  pTexelBufferView : List VkHandle
  deriving DecidableEq, Repr

/-- A VkExtent2D of the Vulkan headers: two uint32_t fields. -/
structure VkExtent2D where
  width : uint32_t
  height : uint32_t
  deriving DecidableEq, Repr

/-! ## The application object and the header constants -/

/-- The constants of vulkanApplication.h that compute.cpp reads.  The header is not
part of the source, so they are parameters of every definition that uses them. -/
structure Config where
  MAX_FRAMES_IN_FLIGHT : Nat
  sizeofRTParams : Nat
  sizeofRTSphere : Nat
  sizeofRTBlackhole : Nat
  deriving DecidableEq, Repr

/-- The members of VulkanApplication that compute.cpp reads or writes. -/
structure VulkanApplication where
  device : VkDevice
  computeDescriptorSetLayout : VkDescriptorSetLayout
  computeDescriptorPool : VkDescriptorPool
  computeDescriptorSets : List VkDescriptorSet
  uniformBuffers : List VkBuffer
  spheresSSBO : List VkBuffer
  blackholesSSBO : List VkBuffer
  textureImageView : VkImageView
  computePipelineLayout : VkPipelineLayout
  computePipeline : VkPipeline
  currentFrame : Nat
  swapChainExtent : VkExtent2D
  deriving DecidableEq, Repr

/-- Element i of a std::vector of handles (operator[]); an index past the end, which
C++ leaves undefined, reads as the null handle. -/
def at_ (xs : List VkHandle) (i : Nat) : VkHandle := xs.getD i VK_NULL_HANDLE

/-- The driver entry points of compute.cpp whose effect on the host is a VkResult and
an out-parameter.  Each takes the create-info and the current content of the
out-parameter and returns the result code and what the out-parameter holds afterwards. -/
structure Driver where
  vkCreateDescriptorSetLayout :
    VkDevice → VkDescriptorSetLayoutCreateInfo → VkDescriptorSetLayout →
      VkResult × VkDescriptorSetLayout
  vkCreateDescriptorPool :
    VkDevice → VkDescriptorPoolCreateInfo → VkDescriptorPool → VkResult × VkDescriptorPool
  /-- Result code, and the handle written into position j of the output array for each
  j below descriptorSetCount. -/
  vkAllocateDescriptorSets :
    VkDevice → VkDescriptorSetAllocateInfo → VkResult × (Nat → VkDescriptorSet)

/-! ## createComputeDescriptorSetLayout (compute.cpp lines 6-39) -/

/-- The array layoutBindings after lines 7-30. -/
def layoutBindings : List VkDescriptorSetLayoutBinding :=
  [ { binding := 0, descriptorCount := 1,
      descriptorType := VK_DESCRIPTOR_TYPE_UNIFORM_BUFFER,
      pImmutableSamplers := none, stageFlags := VK_SHADER_STAGE_COMPUTE_BIT },
    { binding := 1, descriptorCount := 1,
      descriptorType := VK_DESCRIPTOR_TYPE_STORAGE_BUFFER,
      pImmutableSamplers := none, stageFlags := VK_SHADER_STAGE_COMPUTE_BIT },
    { binding := 2, descriptorCount := 1,
      descriptorType := VK_DESCRIPTOR_TYPE_STORAGE_BUFFER,
      pImmutableSamplers := none, stageFlags := VK_SHADER_STAGE_COMPUTE_BIT },
    { binding := 3, descriptorCount := 1,
      descriptorType := VK_DESCRIPTOR_TYPE_STORAGE_IMAGE,
      pImmutableSamplers := none, stageFlags := VK_SHADER_STAGE_COMPUTE_BIT } ]

/-- The structure layoutInfo after lines 32-35. -/
def layoutInfo : VkDescriptorSetLayoutCreateInfo :=
  { sType := VK_STRUCTURE_TYPE_DESCRIPTOR_SET_LAYOUT_CREATE_INFO,
    bindingCount := u32 layoutBindings.length,
    pBindings := layoutBindings }

/-- The whole function: build layoutInfo, create the layout, throw when the driver
does not answer VK_SUCCESS. -/
def createComputeDescriptorSetLayout (drv : Driver) (app : VulkanApplication) :
    Option RuntimeError × VulkanApplication :=
  let r := drv.vkCreateDescriptorSetLayout app.device layoutInfo app.computeDescriptorSetLayout
  let app1 := { app with computeDescriptorSetLayout := r.2 }
  if r.1 ≠ VK_SUCCESS then
    (some CREATE_COMPUTE_DESCRIPTOR_SET_LAYOUT_CREATION_FAILED, app1)
  else
    (none, app1)

/-! ## createComputeDescriptorPool (compute.cpp lines 44-70) -/

/-- The array poolSizes after lines 46-55. -/
def poolSizes (cfg : Config) : List VkDescriptorPoolSize :=
  [ { type := VK_DESCRIPTOR_TYPE_UNIFORM_BUFFER,
      descriptorCount := u32 cfg.MAX_FRAMES_IN_FLIGHT },
    { type := VK_DESCRIPTOR_TYPE_STORAGE_BUFFER,
      descriptorCount := u32mul (u32 cfg.MAX_FRAMES_IN_FLIGHT) 2 },
    { type := VK_DESCRIPTOR_TYPE_STORAGE_IMAGE,
      descriptorCount := u32 cfg.MAX_FRAMES_IN_FLIGHT } ]

/-- The structure poolInfo after lines 57-66. -/
def poolInfo (cfg : Config) : VkDescriptorPoolCreateInfo :=
  { sType := VK_STRUCTURE_TYPE_DESCRIPTOR_POOL_CREATE_INFO,
    poolSizeCount := u32 (poolSizes cfg).length,
    pPoolSizes := poolSizes cfg,
    maxSets := u32 cfg.MAX_FRAMES_IN_FLIGHT }

/-- The whole function: build poolInfo, create the pool, throw when the driver does
not answer VK_SUCCESS. -/
def createComputeDescriptorPool (cfg : Config) (drv : Driver) (app : VulkanApplication) :
    Option RuntimeError × VulkanApplication :=
  let r := drv.vkCreateDescriptorPool app.device (poolInfo cfg) app.computeDescriptorPool
  let app1 := { app with computeDescriptorPool := r.2 }
  if r.1 ≠ VK_SUCCESS then
    (some CREATE_COMPUTE_DESCRIPTOR_POOL_CREATION_FAILED, app1)
  else
    (none, app1)

/-- Capacity the pool description gives descriptor type k: the sum of the
descriptorCount of the pPoolSizes entries of that type (Vulkan adds entries of equal
type). -/
def poolCapacity (info : VkDescriptorPoolCreateInfo) (k : VkDescriptorType) : Nat :=
  ((info.pPoolSizes.filter (fun p => p.type = k)).map (fun p => p.descriptorCount)).sum

/-- Number of descriptors of type k that one set of a layout holds: the sum of the
descriptorCount of its bindings of that type. -/
def layoutDescriptorsOfType (info : VkDescriptorSetLayoutCreateInfo)
    (k : VkDescriptorType) : Nat :=
  ((info.pBindings.filter (fun b => b.descriptorType = k)).map
    (fun b => b.descriptorCount)).sum

/-- Number of slots (bindings) of type k in a layout. -/
def layoutSlotsOfType (info : VkDescriptorSetLayoutCreateInfo) (k : VkDescriptorType) : Nat :=
  (info.pBindings.filter (fun b => b.descriptorType = k)).length

/-! ## createComputeDescriptorSets (compute.cpp lines 75-157) -/

/-- The vector layouts of line 77: MAX_FRAMES_IN_FLIGHT copies of the layout handle. -/
def setLayouts (cfg : Config) (app : VulkanApplication) : List VkDescriptorSetLayout :=
  List.replicate cfg.MAX_FRAMES_IN_FLIGHT app.computeDescriptorSetLayout

/-- The structure allocInfo after lines 78-82. -/
def allocInfo (cfg : Config) (app : VulkanApplication) : VkDescriptorSetAllocateInfo :=
  { sType := VK_STRUCTURE_TYPE_DESCRIPTOR_SET_ALLOCATE_INFO,
    descriptorPool := app.computeDescriptorPool,
    descriptorSetCount := u32 cfg.MAX_FRAMES_IN_FLIGHT,
    pSetLayouts := setLayouts cfg app }

/-- The call std::vector::resize(n) on a vector of handles: the first n elements are
kept, missing ones are value-initialised (null handles). -/
def resize (xs : List VkHandle) (n : Nat) : List VkHandle :=
  xs.take n ++ List.replicate (n - xs.length) VK_NULL_HANDLE

/-- The output array after vkAllocateDescriptorSets: the driver stores a handle in each
of the first count positions of the array and leaves the others alone. -/
def storeHandles (arr : List VkHandle) (count : Nat) (h : Nat → VkHandle) : List VkHandle :=
  (List.range arr.length).map (fun j => if j < count then h j else at_ arr j)

/-- The array descriptorWrites built by iteration i of the loop (lines 95-147), read
off the application object as it is after the allocation. -/
def descriptorWrites (cfg : Config) (app : VulkanApplication) (i : Nat) :
    List VkWriteDescriptorSet :=
  let bufferInfo : VkDescriptorBufferInfo :=
    { buffer := at_ app.uniformBuffers i, offset := 0, range := cfg.sizeofRTParams }
  let storageBufferInfoLastFrame : VkDescriptorBufferInfo :=
    { buffer := at_ app.spheresSSBO i, offset := 0, range := cfg.sizeofRTSphere * 1 }
  let storageBufferInfoCurrentFrame : VkDescriptorBufferInfo :=
    { buffer := at_ app.blackholesSSBO i, offset := 0, range := cfg.sizeofRTBlackhole * 1 }
  let imageInfo : VkDescriptorImageInfo :=
    { sampler := VK_NULL_HANDLE, imageLayout := VK_IMAGE_LAYOUT_GENERAL,
      imageView := app.textureImageView }
  [ { sType := VK_STRUCTURE_TYPE_WRITE_DESCRIPTOR_SET,
      dstSet := at_ app.computeDescriptorSets i,
      dstBinding := 0, dstArrayElement := 0,
      descriptorType := VK_DESCRIPTOR_TYPE_UNIFORM_BUFFER, descriptorCount := 1,
      pBufferInfo := [bufferInfo], pImageInfo := [], pTexelBufferView := [] },
    { sType := VK_STRUCTURE_TYPE_WRITE_DESCRIPTOR_SET,
      dstSet := at_ app.computeDescriptorSets i,
      dstBinding := 1, dstArrayElement := 0,
      descriptorType := VK_DESCRIPTOR_TYPE_STORAGE_BUFFER, descriptorCount := 1,
      pBufferInfo := [storageBufferInfoLastFrame], pImageInfo := [],
      pTexelBufferView := [] },
    { sType := VK_STRUCTURE_TYPE_WRITE_DESCRIPTOR_SET,
      dstSet := at_ app.computeDescriptorSets i,
      dstBinding := 2, dstArrayElement := 0,
      descriptorType := VK_DESCRIPTOR_TYPE_STORAGE_BUFFER, descriptorCount := 1,
      pBufferInfo := [storageBufferInfoCurrentFrame], pImageInfo := [],
      pTexelBufferView := [] },
    { sType := VK_STRUCTURE_TYPE_WRITE_DESCRIPTOR_SET,
      dstSet := at_ app.computeDescriptorSets i,
      dstBinding := 3, dstArrayElement := 0,
      descriptorType := VK_DESCRIPTOR_TYPE_STORAGE_IMAGE, descriptorCount := 1,
      pBufferInfo := [], pImageInfo := [imageInfo], pTexelBufferView := [] } ]

/-- What a binding of a descriptor set holds after a write: the descriptor type and
the buffer or image reference the write supplied for that array element. -/
structure BoundDescriptor where
  descriptorType : VkDescriptorType
  buffer : Option VkDescriptorBufferInfo
  image : Option VkDescriptorImageInfo
  deriving DecidableEq, Repr

/-- Contents of the descriptor sets of a device: per set handle, binding number and
array element, the descriptor bound there (none while nothing was written). -/
abbrev DescriptorState := VkDescriptorSet → Nat → Nat → Option BoundDescriptor

/-- Effect of one VkWriteDescriptorSet (Vulkan semantics of vkUpdateDescriptorSets):
the descriptorCount array elements of binding dstBinding of set dstSet, starting at
dstArrayElement, receive the consecutive elements of the info arrays. -/
def applyWrite (st : DescriptorState) (w : VkWriteDescriptorSet) : DescriptorState :=
  fun s b e =>
    if s = w.dstSet ∧ b = w.dstBinding ∧ w.dstArrayElement ≤ e ∧
        e < w.dstArrayElement + w.descriptorCount then
      some { descriptorType := w.descriptorType,
             buffer := w.pBufferInfo[e - w.dstArrayElement]?,
             image := w.pImageInfo[e - w.dstArrayElement]? }
    else st s b e

/-- The call vkUpdateDescriptorSets(device, n, writes, 0, nullptr): the writes are
applied in array order. -/
def vkUpdateDescriptorSets (st : DescriptorState) (writes : List VkWriteDescriptorSet) :
    DescriptorState :=
  writes.foldl applyWrite st

/-- The calls of vkUpdateDescriptorSets that the loop of lines 93-150 issues, in order:
one batch of writes for each frame index 0, ..., MAX_FRAMES_IN_FLIGHT - 1. -/
def updateCalls (cfg : Config) (app : VulkanApplication) : List (List VkWriteDescriptorSet) :=
  (List.range cfg.MAX_FRAMES_IN_FLIGHT).map (descriptorWrites cfg app)

/-- The device after a sequence of vkUpdateDescriptorSets calls. -/
def runUpdates (st : DescriptorState) (calls : List (List VkWriteDescriptorSet)) :
    DescriptorState :=
  calls.foldl vkUpdateDescriptorSets st

/-- The application object after lines 87-88: the vector resized, then the handles the
driver stored in it. -/
def afterAllocation (cfg : Config) (drv : Driver) (app : VulkanApplication) :
    VulkanApplication :=
  let r := drv.vkAllocateDescriptorSets app.device (allocInfo cfg app)
  { app with
    computeDescriptorSets :=
      storeHandles (resize app.computeDescriptorSets cfg.MAX_FRAMES_IN_FLIGHT)
        (allocInfo cfg app).descriptorSetCount r.2 }

/-- The whole function: allocate MAX_FRAMES_IN_FLIGHT sets, throw when the driver does
not answer VK_SUCCESS, otherwise populate the set of every frame index
0, ..., MAX_FRAMES_IN_FLIGHT - 1 in turn. -/
def createComputeDescriptorSets (cfg : Config) (drv : Driver) (app : VulkanApplication)
    (st : DescriptorState) : Option RuntimeError × VulkanApplication × DescriptorState :=
  let err := (drv.vkAllocateDescriptorSets app.device (allocInfo cfg app)).1
  let app1 := afterAllocation cfg drv app
  if err ≠ VK_SUCCESS then
    (some CREATE_COMPUTE_DESCRIPTOR_SETS_DESCRIPTOR_SETS_ALLOCATION_FAILED, app1, st)
  else
    (none, app1, runUpdates st (updateCalls cfg app1))

/-! ## createComputePipeline (compute.cpp lines 162-197) -/

structure VkPipelineShaderStageCreateInfo where
  sType : VkStructureType
  stage : VkShaderStageFlags
  module : VkShaderModule
  pName : String
  pSpecializationInfo : Option VkHandle
  deriving DecidableEq, Repr

structure VkPipelineLayoutCreateInfo where
  sType : VkStructureType
  setLayoutCount : Nat
  pSetLayouts : List VkDescriptorSetLayout
  deriving DecidableEq, Repr

structure VkComputePipelineCreateInfo where
  sType : VkStructureType
  layout : VkPipelineLayout
  stage : VkPipelineShaderStageCreateInfo
  deriving DecidableEq, Repr

/-- Path of the compiled compute shader read by line 164. -/
def COMP_SHADER_PATH : String := "../resources/shaders/comp.spv"

/-- Entry point name written by line 174. -/
def ENTRY_POINT : String := "main"

/-- Modelled from the spec: the helpers readFile and createShaderModule are defined in
another file of the repository, and vkCreatePipelineLayout, vkCreateComputePipelines
belong to the driver.  The spec only says that the compiled program is loaded as an
opaque module that the build consumes, so the helpers are parameters: each returns its
value or throws; the two driver calls return a result code and the new content of their
out-parameter. -/
structure PipelineDriver where
  readFile : String → Except RuntimeError (List Nat)
  createShaderModule : List Nat → Except RuntimeError VkShaderModule
  vkCreatePipelineLayout :
    VkDevice → VkPipelineLayoutCreateInfo → VkPipelineLayout → VkResult × VkPipelineLayout
  vkCreateComputePipelines :
    VkDevice → VkHandle → List VkComputePipelineCreateInfo → VkPipeline →
      VkResult × VkPipeline

/-- Shader modules of the device that have been created and not yet destroyed. -/
abbrev LiveShaderModules := List VkShaderModule

/-- The call vkDestroyShaderModule(device, m, nullptr): m is no longer live. -/
def vkDestroyShaderModule (live : LiveShaderModules) (m : VkShaderModule) :
    LiveShaderModules :=
  live.filter (fun x => x ≠ m)

/-- The structure compShaderStageInfo after lines 170-175. -/
def compShaderStageInfo (compShaderModule : VkShaderModule) :
    VkPipelineShaderStageCreateInfo :=
  { sType := VK_STRUCTURE_TYPE_PIPELINE_SHADER_STAGE_CREATE_INFO,
    stage := VK_SHADER_STAGE_COMPUTE_BIT,
    module := compShaderModule,
    pName := ENTRY_POINT,
    pSpecializationInfo := none }

/-- The structure pipelineLayoutInfo after lines 178-181. -/
def pipelineLayoutInfo (app : VulkanApplication) : VkPipelineLayoutCreateInfo :=
  { sType := VK_STRUCTURE_TYPE_PIPELINE_LAYOUT_CREATE_INFO,
    setLayoutCount := 1,
    pSetLayouts := [app.computeDescriptorSetLayout] }

/-- The structure pipelineInfo after lines 187-190. -/
def pipelineInfo (app : VulkanApplication) (compShaderModule : VkShaderModule) :
    VkComputePipelineCreateInfo :=
  { sType := VK_STRUCTURE_TYPE_COMPUTE_PIPELINE_CREATE_INFO,
    layout := app.computePipelineLayout,
    stage := compShaderStageInfo compShaderModule }

/-- The whole function.  The result is the error thrown (none on a normal return), the
application object and the live shader modules at the moment the function is left.
A successful createShaderModule makes the module it returns live (line 167); line 196
is the only place where the function destroys it. -/
def createComputePipeline (drv : PipelineDriver) (app : VulkanApplication)
    (live : LiveShaderModules) :
    Option RuntimeError × VulkanApplication × LiveShaderModules :=
  match drv.readFile COMP_SHADER_PATH with
  | .error e => (some e, app, live)
  | .ok compShaderCode =>
    match drv.createShaderModule compShaderCode with
    | .error e => (some e, app, live)
    | .ok compShaderModule =>
      let live1 := compShaderModule :: live
      let r1 := drv.vkCreatePipelineLayout app.device (pipelineLayoutInfo app)
        app.computePipelineLayout
      let app1 := { app with computePipelineLayout := r1.2 }
      if r1.1 ≠ VK_SUCCESS then
        (some CREATE_COMPUTE_PIPELINE_PIPELINE_LAYOUT_CREATION_FAILED, app1, live1)
      else
        let r2 := drv.vkCreateComputePipelines app1.device VK_NULL_HANDLE
          [pipelineInfo app1 compShaderModule] app1.computePipeline
        let app2 := { app1 with computePipeline := r2.2 }
        if r2.1 ≠ VK_SUCCESS then
          (some CREATE_COMPUTE_PIPELINE_PIPELINE_CREATION_FAILED, app2, live1)
        else
          (none, app2, vkDestroyShaderModule live1 compShaderModule)

/-! ## recordComputeCommandBuffer (compute.cpp lines 202-223) -/

structure VkCommandBufferBeginInfo where
  sType : VkStructureType
  flags : Nat
  pInheritanceInfo : Option VkHandle
  deriving DecidableEq, Repr

/-- States of a command buffer (spec 4.5). -/
inductive CommandBufferState where
  | Initial
  | Recording
  | Ended
  deriving DecidableEq, Repr

open CommandBufferState

/-- A recorded command, with the arguments of the vkCmd call that recorded it. -/
inductive Command where
  | bindPipeline (pipelineBindPoint : VkPipelineBindPoint) (pipeline : VkPipeline)
  | bindDescriptorSets (pipelineBindPoint : VkPipelineBindPoint) (layout : VkPipelineLayout)
      (firstSet : Nat) (descriptorSetCount : Nat) (pDescriptorSets : List VkDescriptorSet)
      (dynamicOffsetCount : Nat) (pDynamicOffsets : List Nat)
  | dispatch (groupCountX groupCountY groupCountZ : Nat)
  deriving DecidableEq, Repr

/-- Modelled from the spec: the command buffer is an object of the Vulkan driver, which
is not part of the source.  Spec 4.5 gives it the states Initial, Recording, Ended; the
commands recorded so far and the usage flags of the recording are kept with the state. -/
structure CommandBuffer where
  state : CommandBufferState
  flags : Nat
  commands : List Command
  deriving DecidableEq, Repr

/-- Failures of the device that do not depend on the state of the command buffer (out
of memory, ...): the result code the device gives a begin, respectively an end, that the
state machine admits.  VK_SUCCESS means no such failure. -/
structure DeviceFaults where
  beginResult : VkResult
  endResult : VkResult
  deriving DecidableEq, Repr

/-- Result code of a call the state machine does not admit. -/
def VK_ERROR_VALIDATION_FAILED_EXT : VkResult := -1000011001

/-- Modelled from the spec: vkBeginCommandBuffer is a driver call; spec 4.5 begin():
Initial to Recording, fails when the buffer is not in a recordable state.  A failing
call leaves the buffer as it was. -/
def vkBeginCommandBuffer (dev : DeviceFaults) (cb : CommandBuffer)
    (info : VkCommandBufferBeginInfo) : VkResult × CommandBuffer :=
  if cb.state = Initial then
    if dev.beginResult = VK_SUCCESS then
      (VK_SUCCESS, { state := Recording, flags := info.flags, commands := [] })
    else (dev.beginResult, cb)
  else (VK_ERROR_VALIDATION_FAILED_EXT, cb)

/-- Modelled from the spec: the vkCmd calls are driver calls without a return value;
spec 4.5: valid only in Recording, failures are not reported synchronously.  In
Recording the command is appended.  For any other state the spec fixes no effect; the
definition leaves the buffer as it is there, a case recordComputeCommandBuffer never
reaches and no theorem below relies on. -/
def vkCmd (cb : CommandBuffer) (c : Command) : CommandBuffer :=
  if cb.state = Recording then { cb with commands := cb.commands ++ [c] } else cb

/-- Modelled from the spec: vkEndCommandBuffer is a driver call; spec 4.5 end():
Recording to Ended, fails when attempted from any other state.  A failing call leaves
the buffer as it was. -/
def vkEndCommandBuffer (dev : DeviceFaults) (cb : CommandBuffer) : VkResult × CommandBuffer :=
  if cb.state = Recording then
    if dev.endResult = VK_SUCCESS then (VK_SUCCESS, { cb with state := Ended })
    else (dev.endResult, cb)
  else (VK_ERROR_VALIDATION_FAILED_EXT, cb)

def vkCmdBindPipeline (cb : CommandBuffer) (pipelineBindPoint : VkPipelineBindPoint)
    (pipeline : VkPipeline) : CommandBuffer :=
  vkCmd cb (Command.bindPipeline pipelineBindPoint pipeline)

def vkCmdBindDescriptorSets (cb : CommandBuffer) (pipelineBindPoint : VkPipelineBindPoint)
    (layout : VkPipelineLayout) (firstSet descriptorSetCount : Nat)
    (pDescriptorSets : List VkDescriptorSet) (dynamicOffsetCount : Nat)
    (pDynamicOffsets : List Nat) : CommandBuffer :=
  vkCmd cb (Command.bindDescriptorSets pipelineBindPoint layout firstSet descriptorSetCount
    pDescriptorSets dynamicOffsetCount pDynamicOffsets)

def vkCmdDispatch (cb : CommandBuffer) (groupCountX groupCountY groupCountZ : Nat) :
    CommandBuffer :=
  vkCmd cb (Command.dispatch groupCountX groupCountY groupCountZ)

/-- The structure beginInfo after lines 204-210. -/
def beginInfo : VkCommandBufferBeginInfo :=
  { sType := VK_STRUCTURE_TYPE_COMMAND_BUFFER_BEGIN_INFO,
    flags := 0,
    pInheritanceInfo := none }

/-- Lines 216-220: bind the pipeline, bind the descriptor set of the current frame,
dispatch.  None of the three calls returns a value and the source has no throw here,
so the step never reports an error. -/
def bindAndDispatch (app : VulkanApplication) (cb : CommandBuffer) :
    Option RuntimeError × CommandBuffer :=
  let cb1 := vkCmdBindPipeline cb VK_PIPELINE_BIND_POINT_COMPUTE app.computePipeline
  let cb2 := vkCmdBindDescriptorSets cb1 VK_PIPELINE_BIND_POINT_COMPUTE
    app.computePipelineLayout 0 1 [at_ app.computeDescriptorSets app.currentFrame] 0 []
  let cb3 := vkCmdDispatch cb2 (u32 app.swapChainExtent.width.val)
    (u32 app.swapChainExtent.height.val) 1
  (none, cb3)

/-- Lines 221-222: end the recording, throw when the driver does not answer
VK_SUCCESS. -/
def endRecording (dev : DeviceFaults) (cb : CommandBuffer) :
    Option RuntimeError × CommandBuffer :=
  let r := vkEndCommandBuffer dev cb
  if r.1 ≠ VK_SUCCESS then (some RECORD_COMPUTE_COMMAND_BUFFER_COMMIT_FAILED, r.2)
  else (none, r.2)

/-- The whole function: begin (throw on failure), bind and dispatch, end (throw on
failure).  The result is the error thrown (none on a normal return) and the command
buffer as the function leaves it. -/
def recordComputeCommandBuffer (dev : DeviceFaults) (app : VulkanApplication)
    (commandBuffer : CommandBuffer) : Option RuntimeError × CommandBuffer :=
  let r := vkBeginCommandBuffer dev commandBuffer beginInfo
  if r.1 ≠ VK_SUCCESS then
    (some RECORD_COMPUTE_COMMAND_BUFFER_COMMAND_BUFFER_BEGIN_FAILED, r.2)
  else
    endRecording dev (bindAndDispatch app r.2).2

/-! ## Concrete inputs used to exercise the definitions -/

/-- Header constants with two frames in flight. -/
def cfgTwoFrames : Config :=
  { MAX_FRAMES_IN_FLIGHT := 2, sizeofRTParams := 64, sizeofRTSphere := 48,
    sizeofRTBlackhole := 32 }

/-- Header constants with 2^31 frames in flight: the smallest value at which the
uint32_t product of line 52 wraps. -/
def cfgWrapping : Config :=
  { MAX_FRAMES_IN_FLIGHT := 2147483648, sizeofRTParams := 64, sizeofRTSphere := 48,
    sizeofRTBlackhole := 32 }

/-- Header constants with 2^32 frames in flight: the smallest positive value that the
conversion of line 81 does not keep. -/
def cfgHuge : Config :=
  { MAX_FRAMES_IN_FLIGHT := 4294967296, sizeofRTParams := 64, sizeofRTSphere := 48,
    sizeofRTBlackhole := 32 }

/-- An application object before the compute stage is set up: two frames worth of
buffers with distinct handles, one output image view, an 800 x 600 target. -/
def sampleApp : VulkanApplication :=
  { device := 1,
    computeDescriptorSetLayout := 10,
    computeDescriptorPool := 20,
    computeDescriptorSets := [],
    uniformBuffers := [31, 32],
    spheresSSBO := [41, 42],
    blackholesSSBO := [51, 52],
    textureImageView := 60,
    computePipelineLayout := 70,
    computePipeline := 80,
    currentFrame := 0,
    swapChainExtent := { width := ⟨800, by decide⟩, height := ⟨600, by decide⟩ } }

/-- A driver on which every call succeeds; set j of an allocation gets handle 101 + j. -/
def sampleDriver : Driver :=
  { vkCreateDescriptorSetLayout := fun _ _ _ => (VK_SUCCESS, 10),
    vkCreateDescriptorPool := fun _ _ _ => (VK_SUCCESS, 20),
    vkAllocateDescriptorSets := fun _ _ => (VK_SUCCESS, fun j => 101 + j) }

/-- Descriptor sets to which nothing has been written. -/
def emptyDescriptors : DescriptorState := fun _ _ _ => none

/-- The sample application once its two descriptor sets 101 and 102 exist. -/
def sampleAppReady : VulkanApplication :=
  { sampleApp with computeDescriptorSets := [101, 102] }

/-- A pipeline driver on which everything succeeds; the shader module gets handle 90. -/
def pipelineDriverOk : PipelineDriver :=
  { readFile := fun _ => .ok [3, 2, 35, 7],
    createShaderModule := fun _ => .ok 90,
    vkCreatePipelineLayout := fun _ _ _ => (VK_SUCCESS, 70),
    vkCreateComputePipelines := fun _ _ _ _ => (VK_SUCCESS, 80) }

/-- A pipeline driver on which vkCreatePipelineLayout runs out of host memory. -/
def pipelineDriverLayoutFails : PipelineDriver :=
  { pipelineDriverOk with
    vkCreatePipelineLayout := fun _ _ old => (VK_ERROR_OUT_OF_HOST_MEMORY, old) }

/-- A pipeline driver on which vkCreateComputePipelines runs out of device memory. -/
def pipelineDriverPipelineFails : PipelineDriver :=
  { pipelineDriverOk with
    vkCreateComputePipelines := fun _ _ _ _ => (VK_ERROR_OUT_OF_DEVICE_MEMORY, VK_NULL_HANDLE) }

/-- A device without failures of its own. -/
def noFaults : DeviceFaults := { beginResult := VK_SUCCESS, endResult := VK_SUCCESS }

/-- A command buffer in the Initial state. -/
def freshCommandBuffer : CommandBuffer := { state := Initial, flags := 0, commands := [] }

/-- Whether a recorded command is a dispatch. -/
def isDispatch : Command → Bool
  | Command.dispatch _ _ _ => true
  | _ => false

/-! ## Arithmetic of the uint32_t conversions -/

theorem u32_of_lt {n : Nat} (h : n < 4294967296) : u32 n = n := by
  unfold u32 UINT32_RANGE
  exact Nat.mod_eq_of_lt h

theorem u32_le (n : Nat) : u32 n ≤ n := by
  unfold u32 UINT32_RANGE
  exact Nat.mod_le n 4294967296

theorem u32mul_two_of_lt {n : Nat} (h : n < 2147483648) : u32mul (u32 n) 2 = 2 * n := by
  unfold u32mul u32 UINT32_RANGE
  omega

/-- The 32-bit values of the pool description for an arbitrary MAX_FRAMES_IN_FLIGHT:
the sizes are F, 2F, F and maxSets is F, each reduced modulo 2^32. -/
theorem pool_counts_mod (cfg : Config) :
    poolCapacity (poolInfo cfg) VK_DESCRIPTOR_TYPE_UNIFORM_BUFFER
        = u32 cfg.MAX_FRAMES_IN_FLIGHT ∧
    poolCapacity (poolInfo cfg) VK_DESCRIPTOR_TYPE_STORAGE_BUFFER
        = u32 (2 * cfg.MAX_FRAMES_IN_FLIGHT) ∧
    poolCapacity (poolInfo cfg) VK_DESCRIPTOR_TYPE_STORAGE_IMAGE
        = u32 cfg.MAX_FRAMES_IN_FLIGHT ∧
    (poolInfo cfg).maxSets = u32 cfg.MAX_FRAMES_IN_FLIGHT := by
  simp [poolCapacity, poolInfo, poolSizes, u32, u32mul, UINT32_RANGE]
  omega

/-! ## The binding layout -/

/-- C1: the layout passed to vkCreateDescriptorSetLayout has exactly 4 bindings, with
binding numbers 0, 1, 2, 3 in that order, of types uniform buffer, storage buffer,
storage buffer, storage image, each with descriptor count 1, and the stage mask of each
is the compute bit alone: bit 5 is the only bit set. -/
theorem layout_shape :
    layoutInfo.bindingCount = 4 ∧
    layoutInfo.pBindings.length = 4 ∧
    layoutInfo.pBindings.map (fun b => b.binding) = [0, 1, 2, 3] ∧
    layoutInfo.pBindings.map (fun b => b.descriptorType) =
      [VK_DESCRIPTOR_TYPE_UNIFORM_BUFFER, VK_DESCRIPTOR_TYPE_STORAGE_BUFFER,
       VK_DESCRIPTOR_TYPE_STORAGE_BUFFER, VK_DESCRIPTOR_TYPE_STORAGE_IMAGE] ∧
    (∀ b ∈ layoutInfo.pBindings, b.descriptorCount = 1) ∧
    (∀ b ∈ layoutInfo.pBindings, b.stageFlags = VK_SHADER_STAGE_COMPUTE_BIT) ∧
    (∀ b ∈ layoutInfo.pBindings, ∀ bit : Nat,
      Nat.testBit b.stageFlags bit = true ↔ bit = COMPUTE_STAGE_BIT_INDEX) ∧
    (∀ (drv : Driver) (app : VulkanApplication),
      (createComputeDescriptorSetLayout drv app).1 = none ↔
        (drv.vkCreateDescriptorSetLayout app.device layoutInfo
          app.computeDescriptorSetLayout).1 = VK_SUCCESS) := by
  have hbit : ∀ bit : Nat, Nat.testBit 32 bit = true ↔ bit = 5 := by
    intro bit
    have h := @Nat.testBit_two_pow 5 bit
    norm_num at h
    rw [h]
    simp [eq_comm]
  refine ⟨by decide, by decide, by decide, by decide, by decide, by decide, ?_, ?_⟩
  · intro b hb bit
    have hflags : b.stageFlags = 32 := by
      revert b
      decide
    rw [hflags]
    exact hbit bit
  · intro drv app
    unfold createComputeDescriptorSetLayout
    by_cases h : (drv.vkCreateDescriptorSetLayout app.device layoutInfo
        app.computeDescriptorSetLayout).1 = VK_SUCCESS <;> simp [h]

/-! ## The descriptor pool -/

/-- C2: for every positive F = MAX_FRAMES_IN_FLIGHT the pool description has, as 32-bit
unsigned values, capacity F for uniform buffers, 2F for storage buffers, F for storage
images and maxSets = F; whenever 2F fits in 32 bits (F below 2^31) these are the numbers
F, 2F, F and F themselves.  The description has exactly the three sizes uniform buffer,
storage buffer, storage image, and the function returns normally exactly when the
driver accepts it. -/
theorem pool_sizing (cfg : Config) (hpos : 0 < cfg.MAX_FRAMES_IN_FLIGHT) :
    poolCapacity (poolInfo cfg) VK_DESCRIPTOR_TYPE_UNIFORM_BUFFER
        = u32 cfg.MAX_FRAMES_IN_FLIGHT ∧
    poolCapacity (poolInfo cfg) VK_DESCRIPTOR_TYPE_STORAGE_BUFFER
        = u32 (2 * cfg.MAX_FRAMES_IN_FLIGHT) ∧
    poolCapacity (poolInfo cfg) VK_DESCRIPTOR_TYPE_STORAGE_IMAGE
        = u32 cfg.MAX_FRAMES_IN_FLIGHT ∧
    (poolInfo cfg).maxSets = u32 cfg.MAX_FRAMES_IN_FLIGHT ∧
    (cfg.MAX_FRAMES_IN_FLIGHT < 2147483648 →
      poolCapacity (poolInfo cfg) VK_DESCRIPTOR_TYPE_UNIFORM_BUFFER
          = cfg.MAX_FRAMES_IN_FLIGHT ∧
      poolCapacity (poolInfo cfg) VK_DESCRIPTOR_TYPE_STORAGE_BUFFER
          = 2 * cfg.MAX_FRAMES_IN_FLIGHT ∧
      poolCapacity (poolInfo cfg) VK_DESCRIPTOR_TYPE_STORAGE_IMAGE
          = cfg.MAX_FRAMES_IN_FLIGHT ∧
      (poolInfo cfg).maxSets = cfg.MAX_FRAMES_IN_FLIGHT) ∧
    (poolInfo cfg).pPoolSizes.map (fun p => p.type) =
      [VK_DESCRIPTOR_TYPE_UNIFORM_BUFFER, VK_DESCRIPTOR_TYPE_STORAGE_BUFFER,
       VK_DESCRIPTOR_TYPE_STORAGE_IMAGE] ∧
    (poolInfo cfg).poolSizeCount = 3 ∧
    (∀ (drv : Driver) (app : VulkanApplication),
      (createComputeDescriptorPool cfg drv app).1 = none ↔
        (drv.vkCreateDescriptorPool app.device (poolInfo cfg)
          app.computeDescriptorPool).1 = VK_SUCCESS) := by
  have hmod := pool_counts_mod cfg
  refine ⟨hmod.1, hmod.2.1, hmod.2.2.1, hmod.2.2.2, ?_, ?_, ?_, ?_⟩
  · intro hF
    have h1 : cfg.MAX_FRAMES_IN_FLIGHT % 4294967296 = cfg.MAX_FRAMES_IN_FLIGHT :=
      Nat.mod_eq_of_lt (by omega)
    have h2 : (2 * cfg.MAX_FRAMES_IN_FLIGHT) % 4294967296 = 2 * cfg.MAX_FRAMES_IN_FLIGHT :=
      Nat.mod_eq_of_lt (by omega)
    exact ⟨hmod.1.trans h1, hmod.2.1.trans h2, hmod.2.2.1.trans h1, hmod.2.2.2.trans h1⟩
  · simp [poolInfo, poolSizes]
  · simp [poolInfo, poolSizes, u32, UINT32_RANGE]
  · intro drv app
    unfold createComputeDescriptorPool
    by_cases h : (drv.vkCreateDescriptorPool app.device (poolInfo cfg)
        app.computeDescriptorPool).1 = VK_SUCCESS <;> simp [h]

/-- The pool of two frames in flight: capacities 2, 4, 2 and maxSets 2. -/
theorem pool_sizing_two_frames :
    0 < cfgTwoFrames.MAX_FRAMES_IN_FLIGHT ∧
    poolCapacity (poolInfo cfgTwoFrames) VK_DESCRIPTOR_TYPE_UNIFORM_BUFFER = 2 ∧
    poolCapacity (poolInfo cfgTwoFrames) VK_DESCRIPTOR_TYPE_STORAGE_BUFFER = 4 ∧
    poolCapacity (poolInfo cfgTwoFrames) VK_DESCRIPTOR_TYPE_STORAGE_IMAGE = 2 ∧
    (poolInfo cfgTwoFrames).maxSets = 2 :=
  have h := (pool_sizing cfgTwoFrames (by decide)).2.2.2.2.1 (by decide)
  ⟨by decide, h.1, h.2.1, h.2.2.1, h.2.2.2⟩

/-- C3, as stated, fails at MAX_FRAMES_IN_FLIGHT = 2^31: the layout has 2 storage-buffer
slots, so the claimed capacity is 2 * 2^31, but the pool description holds 0 storage
buffers; the allocation of createComputeDescriptorSets asks for 2^31 sets, and with
them for 2^32 storage-buffer descriptors, more than the pool has. -/
theorem pool_too_small_at_two_pow_31 :
    0 < cfgWrapping.MAX_FRAMES_IN_FLIGHT ∧
    layoutSlotsOfType layoutInfo VK_DESCRIPTOR_TYPE_STORAGE_BUFFER = 2 ∧
    poolCapacity (poolInfo cfgWrapping) VK_DESCRIPTOR_TYPE_STORAGE_BUFFER
      ≠ layoutSlotsOfType layoutInfo VK_DESCRIPTOR_TYPE_STORAGE_BUFFER
          * cfgWrapping.MAX_FRAMES_IN_FLIGHT ∧
    (allocInfo cfgWrapping sampleApp).descriptorSetCount = 2147483648 ∧
    poolCapacity (poolInfo cfgWrapping) VK_DESCRIPTOR_TYPE_STORAGE_BUFFER
      < (allocInfo cfgWrapping sampleApp).descriptorSetCount
          * layoutDescriptorsOfType layoutInfo VK_DESCRIPTOR_TYPE_STORAGE_BUFFER := by
  decide

/-- C3 (amended): for every positive F = MAX_FRAMES_IN_FLIGHT below 2^31 and every
descriptor type k, the capacity the pool description gives k is the number of layout
slots of type k times F; every type that occurs in the layout has a pool size entry;
maxSets is at least F; and the allocation of createComputeDescriptorSets, which asks
for F sets of that layout, needs no more descriptors of type k than the pool has and
no more sets than maxSets. -/
theorem pool_covers_layout (cfg : Config) (app : VulkanApplication) (k : VkDescriptorType)
    (hpos : 0 < cfg.MAX_FRAMES_IN_FLIGHT) (hF : cfg.MAX_FRAMES_IN_FLIGHT < 2147483648) :
    poolCapacity (poolInfo cfg) k
        = layoutSlotsOfType layoutInfo k * cfg.MAX_FRAMES_IN_FLIGHT ∧
    (0 < layoutSlotsOfType layoutInfo k → ∃ p ∈ (poolInfo cfg).pPoolSizes, p.type = k) ∧
    cfg.MAX_FRAMES_IN_FLIGHT ≤ (poolInfo cfg).maxSets ∧
    (allocInfo cfg app).descriptorSetCount = cfg.MAX_FRAMES_IN_FLIGHT ∧
    (allocInfo cfg app).pSetLayouts
        = List.replicate cfg.MAX_FRAMES_IN_FLIGHT app.computeDescriptorSetLayout ∧
    (allocInfo cfg app).descriptorSetCount * layoutDescriptorsOfType layoutInfo k
        ≤ poolCapacity (poolInfo cfg) k ∧
    (allocInfo cfg app).descriptorSetCount ≤ (poolInfo cfg).maxSets := by
  have h1 : u32 cfg.MAX_FRAMES_IN_FLIGHT = cfg.MAX_FRAMES_IN_FLIGHT :=
    u32_of_lt (by omega)
  have h2 : u32mul cfg.MAX_FRAMES_IN_FLIGHT 2 = 2 * cfg.MAX_FRAMES_IN_FLIGHT := by
    have h := u32mul_two_of_lt hF
    rwa [h1] at h
  cases k <;>
    (simp [poolCapacity, poolInfo, poolSizes, layoutSlotsOfType, layoutDescriptorsOfType,
      layoutInfo, layoutBindings, allocInfo, setLayouts, h1, h2]; try omega)

/-- With two frames in flight the pool covers the two storage-buffer slots: capacity
4 = 2 slots * 2 frames, and the 2 sets requested need 4. -/
theorem pool_covers_layout_two_frames :
    poolCapacity (poolInfo cfgTwoFrames) VK_DESCRIPTOR_TYPE_STORAGE_BUFFER
        = layoutSlotsOfType layoutInfo VK_DESCRIPTOR_TYPE_STORAGE_BUFFER * 2 ∧
    (allocInfo cfgTwoFrames sampleApp).descriptorSetCount
        * layoutDescriptorsOfType layoutInfo VK_DESCRIPTOR_TYPE_STORAGE_BUFFER
      ≤ poolCapacity (poolInfo cfgTwoFrames) VK_DESCRIPTOR_TYPE_STORAGE_BUFFER :=
  have h := pool_covers_layout cfgTwoFrames sampleApp VK_DESCRIPTOR_TYPE_STORAGE_BUFFER
    (by decide) (by decide)
  ⟨h.1, h.2.2.2.2.2.1⟩

/-! ## Allocation and population of the per-frame descriptor sets -/

theorem length_resize (xs : List VkHandle) (n : Nat) : (resize xs n).length = n := by
  simp [resize]
  omega

theorem length_storeHandles (arr : List VkHandle) (count : Nat) (h : Nat → VkHandle) :
    (storeHandles arr count h).length = arr.length := by
  simp [storeHandles]

theorem at_storeHandles (arr : List VkHandle) (count : Nat) (h : Nat → VkHandle) (j : Nat)
    (hj : j < count) (hlen : j < arr.length) : at_ (storeHandles arr count h) j = h j := by
  simp [at_, storeHandles, List.getD, hlen, hj]

theorem length_afterAllocation (cfg : Config) (drv : Driver) (app : VulkanApplication) :
    (afterAllocation cfg drv app).computeDescriptorSets.length = cfg.MAX_FRAMES_IN_FLIGHT := by
  simp [afterAllocation, length_storeHandles, length_resize]

/-- A write leaves every set other than its dstSet as it was. -/
theorem applyWrite_other (st : DescriptorState) (w : VkWriteDescriptorSet)
    (s : VkDescriptorSet) (hs : s ≠ w.dstSet) (b e : Nat) :
    applyWrite st w s b e = st s b e := by
  simp [applyWrite, hs]

/-- A batched update leaves every set that is the dstSet of none of its writes as it
was. -/
theorem vkUpdateDescriptorSets_other (writes : List VkWriteDescriptorSet)
    (s : VkDescriptorSet) (hs : ∀ w ∈ writes, s ≠ w.dstSet) (st : DescriptorState)
    (b e : Nat) : vkUpdateDescriptorSets st writes s b e = st s b e := by
  unfold vkUpdateDescriptorSets
  induction writes generalizing st with
  | nil => rfl
  | cons w ws ih =>
    rw [List.foldl_cons, ih (fun x hx => hs x (List.mem_cons_of_mem w hx))]
    exact applyWrite_other st w s (hs w (List.mem_cons_self w ws)) b e

/-- Every write of iteration i has the set of frame i as its destination. -/
theorem dstSet_descriptorWrites (cfg : Config) (app : VulkanApplication) (i : Nat) :
    ∀ w ∈ descriptorWrites cfg app i, w.dstSet = at_ app.computeDescriptorSets i := by
  intro w hw
  simp [descriptorWrites] at hw
  rcases hw with h | h | h | h <;> rw [h]

/-- The four bindings of the set of frame i right after the batched update of
iteration i, whatever the sets held before. -/
theorem slots_after_update (cfg : Config) (app : VulkanApplication) (i : Nat)
    (st0 : DescriptorState) :
    vkUpdateDescriptorSets st0 (descriptorWrites cfg app i)
        (at_ app.computeDescriptorSets i) 0 0
      = some { descriptorType := VK_DESCRIPTOR_TYPE_UNIFORM_BUFFER,
               buffer := some { buffer := at_ app.uniformBuffers i, offset := 0,
                                range := cfg.sizeofRTParams },
               image := none } ∧
    vkUpdateDescriptorSets st0 (descriptorWrites cfg app i)
        (at_ app.computeDescriptorSets i) 1 0
      = some { descriptorType := VK_DESCRIPTOR_TYPE_STORAGE_BUFFER,
               buffer := some { buffer := at_ app.spheresSSBO i, offset := 0,
                                range := cfg.sizeofRTSphere },
               image := none } ∧
    vkUpdateDescriptorSets st0 (descriptorWrites cfg app i)
        (at_ app.computeDescriptorSets i) 2 0
      = some { descriptorType := VK_DESCRIPTOR_TYPE_STORAGE_BUFFER,
               buffer := some { buffer := at_ app.blackholesSSBO i, offset := 0,
                                range := cfg.sizeofRTBlackhole },
               image := none } ∧
    vkUpdateDescriptorSets st0 (descriptorWrites cfg app i)
        (at_ app.computeDescriptorSets i) 3 0
      = some { descriptorType := VK_DESCRIPTOR_TYPE_STORAGE_IMAGE,
               buffer := none,
               image := some { sampler := VK_NULL_HANDLE,
                               imageView := app.textureImageView,
                               imageLayout := VK_IMAGE_LAYOUT_GENERAL } } := by
  simp [vkUpdateDescriptorSets, descriptorWrites, applyWrite]

/-- A run of batched updates leaves every set whose handle belongs to none of the
frames updated as it was. -/
theorem runUpdates_other (cfg : Config) (app : VulkanApplication) (s : VkDescriptorSet)
    (frames : List Nat) (hs : ∀ j ∈ frames, s ≠ at_ app.computeDescriptorSets j)
    (st : DescriptorState) (b e : Nat) :
    runUpdates st (frames.map (descriptorWrites cfg app)) s b e = st s b e := by
  induction frames generalizing st with
  | nil => rfl
  | cons x xs ih =>
    have step : runUpdates st ((x :: xs).map (descriptorWrites cfg app))
        = runUpdates (vkUpdateDescriptorSets st (descriptorWrites cfg app x))
            (xs.map (descriptorWrites cfg app)) := by
      simp [runUpdates]
    rw [step, ih (fun j hj => hs j (List.mem_cons_of_mem x hj))]
    apply vkUpdateDescriptorSets_other
    intro w hw
    rw [dstSet_descriptorWrites cfg app x w hw]
    exact hs x (List.mem_cons_self x xs)

/-- Past the positions the driver filled, the output array keeps what it held. -/
theorem at_storeHandles_ge (arr : List VkHandle) (count : Nat) (h : Nat → VkHandle) (j : Nat)
    (hj : count ≤ j) (hlen : j < arr.length) :
    at_ (storeHandles arr count h) j = at_ arr j := by
  have hnot : ¬ j < count := by omega
  simp [at_, storeHandles, List.getD, hlen, hnot]

/-- Every element of a vector that was empty before resize is the null handle. -/
theorem at_resize_nil (n j : Nat) : at_ (resize [] n) j = VK_NULL_HANDLE := by
  by_cases hj : j < n
  · simp [at_, resize, List.getD, hj]
  · simp [at_, resize, List.getD, hj]

/-- Past the first u32 F positions the vector keeps, after the allocation, what resize
left there. -/
theorem at_afterAllocation_ge (cfg : Config) (drv : Driver) (app : VulkanApplication) (j : Nat)
    (hc : u32 cfg.MAX_FRAMES_IN_FLIGHT ≤ j) (hj : j < cfg.MAX_FRAMES_IN_FLIGHT) :
    at_ (afterAllocation cfg drv app).computeDescriptorSets j
      = at_ (resize app.computeDescriptorSets cfg.MAX_FRAMES_IN_FLIGHT) j := by
  unfold afterAllocation
  apply at_storeHandles_ge
  · exact hc
  · rw [length_resize]
    exact hj

/-- C4, as stated, fails at MAX_FRAMES_IN_FLIGHT = 2^32: line 81 converts 2^32 to the
uint32_t 0, so the request asks for 0 sets, not one per frame index; the allocation
succeeds on the sample driver, the vector holds null handles at the indices 0 and 1,
and the update of iteration 0, whose writes go to computeDescriptorSets[0], changes
binding 0 of the set at index 1. -/
theorem allocation_requests_no_set_at_two_pow_32 :
    (sampleDriver.vkAllocateDescriptorSets sampleApp.device
        (allocInfo cfgHuge sampleApp)).1 = VK_SUCCESS ∧
    (allocInfo cfgHuge sampleApp).descriptorSetCount = 0 ∧
    (allocInfo cfgHuge sampleApp).descriptorSetCount ≠ cfgHuge.MAX_FRAMES_IN_FLIGHT ∧
    at_ (afterAllocation cfgHuge sampleDriver sampleApp).computeDescriptorSets 0
      = VK_NULL_HANDLE ∧
    at_ (afterAllocation cfgHuge sampleDriver sampleApp).computeDescriptorSets 1
      = VK_NULL_HANDLE ∧
    vkUpdateDescriptorSets emptyDescriptors
        (descriptorWrites cfgHuge (afterAllocation cfgHuge sampleDriver sampleApp) 0)
        (at_ (afterAllocation cfgHuge sampleDriver sampleApp).computeDescriptorSets 1) 0 0
      ≠ emptyDescriptors
        (at_ (afterAllocation cfgHuge sampleDriver sampleApp).computeDescriptorSets 1) 0 0 := by
  have hcount : (allocInfo cfgHuge sampleApp).descriptorSetCount = 0 := by
    simp [allocInfo, cfgHuge, u32, UINT32_RANGE]
  have hu : u32 cfgHuge.MAX_FRAMES_IN_FLIGHT = 0 := by
    simp [cfgHuge, u32, UINT32_RANGE]
  have hnull : ∀ j, j < cfgHuge.MAX_FRAMES_IN_FLIGHT →
      at_ (afterAllocation cfgHuge sampleDriver sampleApp).computeDescriptorSets j
        = VK_NULL_HANDLE := by
    intro j hj
    rw [at_afterAllocation_ge cfgHuge sampleDriver sampleApp j (by rw [hu]; exact Nat.zero_le j) hj]
    exact at_resize_nil _ j
  have hlt0 : 0 < cfgHuge.MAX_FRAMES_IN_FLIGHT := by simp [cfgHuge]
  have hlt1 : 1 < cfgHuge.MAX_FRAMES_IN_FLIGHT := by simp [cfgHuge]
  have h0 := hnull 0 hlt0
  have h1 := hnull 1 hlt1
  refine ⟨rfl, hcount, ?_, h0, h1, ?_⟩
  · rw [hcount]
    simp [cfgHuge]
  · have hslot := (slots_after_update cfgHuge
      (afterAllocation cfgHuge sampleDriver sampleApp) 0 emptyDescriptors).1
    rw [h1, ← h0, hslot]
    simp [emptyDescriptors]

/-- C4 (amended): for F = MAX_FRAMES_IN_FLIGHT below 2^32, when the allocation succeeds
createComputeDescriptorSets returns normally; the request asks for F sets and passes F
layouts, all the same one; the vector holds exactly the F handles the driver stored,
in order.  The descriptor state the function leaves is the one after its F batched
updates, the one of iteration i being descriptorWrites i; every write of iteration i
has dstSet = computeDescriptorSets[i], so that update leaves the bindings of every set
with another handle unchanged (of every set j other than i when the driver handed out
distinct handles), and the whole function leaves every set outside the vector
unchanged. -/
theorem sets_allocated_and_isolated (cfg : Config) (drv : Driver) (app : VulkanApplication)
    (st : DescriptorState)
    (hF : cfg.MAX_FRAMES_IN_FLIGHT < 4294967296)
    (hok : (drv.vkAllocateDescriptorSets app.device (allocInfo cfg app)).1 = VK_SUCCESS) :
    (createComputeDescriptorSets cfg drv app st).1 = none ∧
    (createComputeDescriptorSets cfg drv app st).2.1 = afterAllocation cfg drv app ∧
    (createComputeDescriptorSets cfg drv app st).2.2
      = runUpdates st (updateCalls cfg (afterAllocation cfg drv app)) ∧
    (afterAllocation cfg drv app).computeDescriptorSets.length = cfg.MAX_FRAMES_IN_FLIGHT ∧
    (afterAllocation cfg drv app).computeDescriptorSets
      = (List.range cfg.MAX_FRAMES_IN_FLIGHT).map
          (drv.vkAllocateDescriptorSets app.device (allocInfo cfg app)).2 ∧
    (allocInfo cfg app).descriptorSetCount = cfg.MAX_FRAMES_IN_FLIGHT ∧
    (allocInfo cfg app).pSetLayouts
      = List.replicate cfg.MAX_FRAMES_IN_FLIGHT app.computeDescriptorSetLayout ∧
    (updateCalls cfg (afterAllocation cfg drv app)).length = cfg.MAX_FRAMES_IN_FLIGHT ∧
    (∀ i, i < cfg.MAX_FRAMES_IN_FLIGHT →
      (updateCalls cfg (afterAllocation cfg drv app))[i]?
          = some (descriptorWrites cfg (afterAllocation cfg drv app) i) ∧
      (∀ w ∈ descriptorWrites cfg (afterAllocation cfg drv app) i,
        w.dstSet = at_ (afterAllocation cfg drv app).computeDescriptorSets i) ∧
      (∀ (st0 : DescriptorState) (s : VkDescriptorSet),
        s ≠ at_ (afterAllocation cfg drv app).computeDescriptorSets i →
        ∀ b e, vkUpdateDescriptorSets st0
          (descriptorWrites cfg (afterAllocation cfg drv app) i) s b e = st0 s b e) ∧
      ((∀ a c, a < cfg.MAX_FRAMES_IN_FLIGHT → c < cfg.MAX_FRAMES_IN_FLIGHT → a ≠ c →
          (drv.vkAllocateDescriptorSets app.device (allocInfo cfg app)).2 a
            ≠ (drv.vkAllocateDescriptorSets app.device (allocInfo cfg app)).2 c) →
        ∀ (st0 : DescriptorState) (j : Nat), j < cfg.MAX_FRAMES_IN_FLIGHT → j ≠ i →
          ∀ b e, vkUpdateDescriptorSets st0
            (descriptorWrites cfg (afterAllocation cfg drv app) i)
            (at_ (afterAllocation cfg drv app).computeDescriptorSets j) b e
              = st0 (at_ (afterAllocation cfg drv app).computeDescriptorSets j) b e)) ∧
    (∀ s : VkDescriptorSet,
      (∀ j, j < cfg.MAX_FRAMES_IN_FLIGHT →
        s ≠ at_ (afterAllocation cfg drv app).computeDescriptorSets j) →
      ∀ b e, (createComputeDescriptorSets cfg drv app st).2.2 s b e = st s b e) := by
  have hrun : createComputeDescriptorSets cfg drv app st
      = (none, afterAllocation cfg drv app,
          runUpdates st (updateCalls cfg (afterAllocation cfg drv app))) := by
    simp [createComputeDescriptorSets, hok]
  have hu : u32 cfg.MAX_FRAMES_IN_FLIGHT = cfg.MAX_FRAMES_IN_FLIGHT := u32_of_lt hF
  have hat : ∀ j, j < cfg.MAX_FRAMES_IN_FLIGHT →
      at_ (afterAllocation cfg drv app).computeDescriptorSets j
        = (drv.vkAllocateDescriptorSets app.device (allocInfo cfg app)).2 j := by
    intro j hj
    unfold afterAllocation
    apply at_storeHandles
    · show j < u32 cfg.MAX_FRAMES_IN_FLIGHT
      rw [hu]
      exact hj
    · rw [length_resize]
      exact hj
  refine ⟨by rw [hrun], by rw [hrun], by rw [hrun], length_afterAllocation cfg drv app,
    ?_, hu, rfl, by simp [updateCalls], ?_, ?_⟩
  · simp [afterAllocation, storeHandles, length_resize, allocInfo, hu]
    intro a ha hle
    omega
  · intro i hi
    refine ⟨by simp [updateCalls, hi], dstSet_descriptorWrites cfg _ i, ?_, ?_⟩
    · intro st0 s hs b e
      apply vkUpdateDescriptorSets_other
      intro w hw
      rw [dstSet_descriptorWrites cfg _ i w hw]
      exact hs
    · intro hdist st0 j hj hne b e
      apply vkUpdateDescriptorSets_other
      intro w hw
      rw [dstSet_descriptorWrites cfg _ i w hw, hat j hj, hat i hi]
      exact hdist j i hj hi hne
  · intro s hs b e
    rw [hrun]
    exact runUpdates_other cfg _ s _ (fun j hj => hs j (List.mem_range.mp hj)) st b e

/-- Two frames in flight on the sample driver: the vector holds the two handles 101 and
102, the update of frame 0 does not touch set 102, and when the function returns set
101 holds the uniform buffer 31 of frame 0 and set 102 the uniform buffer 32 of frame
1. -/
theorem sets_allocated_and_isolated_two_frames :
    cfgTwoFrames.MAX_FRAMES_IN_FLIGHT < 4294967296 ∧
    (sampleDriver.vkAllocateDescriptorSets sampleApp.device
        (allocInfo cfgTwoFrames sampleApp)).1 = VK_SUCCESS ∧
    (createComputeDescriptorSets cfgTwoFrames sampleDriver sampleApp emptyDescriptors).1
        = none ∧
    (afterAllocation cfgTwoFrames sampleDriver sampleApp).computeDescriptorSets
        = [101, 102] ∧
    (∀ b e, vkUpdateDescriptorSets emptyDescriptors
        (descriptorWrites cfgTwoFrames (afterAllocation cfgTwoFrames sampleDriver sampleApp) 0)
        102 b e = none) ∧
    ((createComputeDescriptorSets cfgTwoFrames sampleDriver sampleApp emptyDescriptors).2.2
        101 0 0).map (fun d => d.buffer.map (fun x => x.buffer)) = some (some 31) ∧
    ((createComputeDescriptorSets cfgTwoFrames sampleDriver sampleApp emptyDescriptors).2.2
        102 0 0).map (fun d => d.buffer.map (fun x => x.buffer)) = some (some 32) :=
  have h := sets_allocated_and_isolated cfgTwoFrames sampleDriver sampleApp emptyDescriptors
    (by decide) (by decide)
  ⟨by decide, by decide, h.1, by decide,
    (h.2.2.2.2.2.2.2.2.1 0 (by decide)).2.2.1 emptyDescriptors 102 (by decide),
    by decide, by decide⟩

/-- Shape of the batch of writes of iteration i, for any application object: one write
per layout binding, in the order of the layout, each with array element 0, descriptor
count 1 and the descriptor type of its binding. -/
theorem descriptorWrites_shape (cfg : Config) (app : VulkanApplication) (i : Nat) :
    (descriptorWrites cfg app i).length = 4 ∧
    (descriptorWrites cfg app i).map (fun w => w.dstBinding) = [0, 1, 2, 3] ∧
    (descriptorWrites cfg app i).map (fun w => w.dstBinding)
      = layoutInfo.pBindings.map (fun b => b.binding) ∧
    (∀ w ∈ descriptorWrites cfg app i, w.dstArrayElement = 0 ∧ w.descriptorCount = 1) ∧
    (descriptorWrites cfg app i).map (fun w => (w.dstBinding, w.descriptorType))
      = layoutInfo.pBindings.map (fun b => (b.binding, b.descriptorType)) ∧
    (∀ w ∈ descriptorWrites cfg app i, ∀ b ∈ layoutInfo.pBindings,
      b.binding = w.dstBinding →
        w.descriptorType = b.descriptorType ∧ w.descriptorCount = b.descriptorCount) ∧
    (∀ w ∈ descriptorWrites cfg app i, ∃ b ∈ layoutInfo.pBindings,
      b.binding = w.dstBinding) ∧
    (∀ b ∈ layoutInfo.pBindings,
      ((descriptorWrites cfg app i).filter (fun w => w.dstBinding = b.binding)).length = 1) ∧
    (updateCalls cfg app).length = cfg.MAX_FRAMES_IN_FLIGHT ∧
    (i < cfg.MAX_FRAMES_IN_FLIGHT →
      (updateCalls cfg app)[i]? = some (descriptorWrites cfg app i)) := by
  refine ⟨by simp [descriptorWrites], by simp [descriptorWrites],
    by simp [descriptorWrites, layoutInfo, layoutBindings], ?_,
    by simp [descriptorWrites, layoutInfo, layoutBindings], ?_, ?_, ?_,
    by simp [updateCalls], ?_⟩
  · intro w hw
    simp [descriptorWrites] at hw
    rcases hw with h | h | h | h <;> simp [h]
  · intro w hw b hb
    simp [descriptorWrites] at hw
    simp [layoutInfo, layoutBindings] at hb
    rcases hw with h | h | h | h <;> rcases hb with g | g | g | g <;> simp [h, g]
  · intro w hw
    simp [descriptorWrites] at hw
    rcases hw with h | h | h | h <;> simp [h, layoutInfo, layoutBindings]
  · intro b hb
    simp [layoutInfo, layoutBindings] at hb
    rcases hb with g | g | g | g <;> simp [g, descriptorWrites]
  · intro hi
    simp [updateCalls, hi]

/-- A batched update of iteration i touches no binding number outside 0..3 and no
array element other than 0, in any set. -/
theorem update_outside_layout (cfg : Config) (app : VulkanApplication) (i : Nat)
    (st0 : DescriptorState) (s : VkDescriptorSet) (b e : Nat) (h : 4 ≤ b ∨ 1 ≤ e) :
    vkUpdateDescriptorSets st0 (descriptorWrites cfg app i) s b e = st0 s b e := by
  have hb : (b = 0 → 1 ≤ e) ∧ (b = 1 → 1 ≤ e) ∧ (b = 2 → 1 ≤ e) ∧ (b = 3 → 1 ≤ e) := by
    omega
  obtain ⟨h0, h1, h2, h3⟩ := hb
  simp only [vkUpdateDescriptorSets, descriptorWrites, List.foldl, applyWrite]
  have n0 : ¬ (s = at_ app.computeDescriptorSets i ∧ b = 0 ∧ 0 ≤ e ∧ e < 0 + 1) := by
    intro hh
    have := h0 hh.2.1
    omega
  have n1 : ¬ (s = at_ app.computeDescriptorSets i ∧ b = 1 ∧ 0 ≤ e ∧ e < 0 + 1) := by
    intro hh
    have := h1 hh.2.1
    omega
  have n2 : ¬ (s = at_ app.computeDescriptorSets i ∧ b = 2 ∧ 0 ≤ e ∧ e < 0 + 1) := by
    intro hh
    have := h2 hh.2.1
    omega
  have n3 : ¬ (s = at_ app.computeDescriptorSets i ∧ b = 3 ∧ 0 ≤ e ∧ e < 0 + 1) := by
    intro hh
    have := h3 hh.2.1
    omega
  rw [if_neg n3, if_neg n2, if_neg n1, if_neg n0]

/-- C10: when the allocation succeeds, the descriptor state createComputeDescriptorSets
leaves is the one after its F batched updates, and for every frame index i < F the
update of frame i is the batch descriptorWrites i, which has exactly one write per
layout binding: the destination bindings are 0, 1, 2, 3, the binding numbers of the
layout in the same order, none omitted and none outside the layout; each write has
array element 0 and descriptor count 1; and the descriptor type of each write is the
type the layout declares for that binding.  On the device, the batch gives every
layout binding of the set of frame i a descriptor of the declared type and touches no
other binding number and no other array element. -/
theorem writes_match_layout (cfg : Config) (drv : Driver) (app : VulkanApplication)
    (st : DescriptorState) (i : Nat)
    (hok : (drv.vkAllocateDescriptorSets app.device (allocInfo cfg app)).1 = VK_SUCCESS)
    (hi : i < cfg.MAX_FRAMES_IN_FLIGHT) :
    (createComputeDescriptorSets cfg drv app st).1 = none ∧
    (createComputeDescriptorSets cfg drv app st).2.2
      = runUpdates st (updateCalls cfg (afterAllocation cfg drv app)) ∧
    (updateCalls cfg (afterAllocation cfg drv app)).length = cfg.MAX_FRAMES_IN_FLIGHT ∧
    (updateCalls cfg (afterAllocation cfg drv app))[i]?
      = some (descriptorWrites cfg (afterAllocation cfg drv app) i) ∧
    (descriptorWrites cfg (afterAllocation cfg drv app) i).length = 4 ∧
    (descriptorWrites cfg (afterAllocation cfg drv app) i).map (fun w => w.dstBinding)
      = [0, 1, 2, 3] ∧
    (descriptorWrites cfg (afterAllocation cfg drv app) i).map (fun w => w.dstBinding)
      = layoutInfo.pBindings.map (fun b => b.binding) ∧
    (∀ w ∈ descriptorWrites cfg (afterAllocation cfg drv app) i,
      w.dstArrayElement = 0 ∧ w.descriptorCount = 1) ∧
    (descriptorWrites cfg (afterAllocation cfg drv app) i).map
        (fun w => (w.dstBinding, w.descriptorType))
      = layoutInfo.pBindings.map (fun b => (b.binding, b.descriptorType)) ∧
    (∀ w ∈ descriptorWrites cfg (afterAllocation cfg drv app) i,
      ∀ b ∈ layoutInfo.pBindings, b.binding = w.dstBinding →
        w.descriptorType = b.descriptorType ∧ w.descriptorCount = b.descriptorCount) ∧
    (∀ w ∈ descriptorWrites cfg (afterAllocation cfg drv app) i,
      ∃ b ∈ layoutInfo.pBindings, b.binding = w.dstBinding) ∧
    (∀ b ∈ layoutInfo.pBindings,
      ((descriptorWrites cfg (afterAllocation cfg drv app) i).filter
        (fun w => w.dstBinding = b.binding)).length = 1) ∧
    (∀ (st0 : DescriptorState), ∀ b ∈ layoutInfo.pBindings,
      ∃ d, vkUpdateDescriptorSets st0 (descriptorWrites cfg (afterAllocation cfg drv app) i)
          (at_ (afterAllocation cfg drv app).computeDescriptorSets i) b.binding 0 = some d ∧
        d.descriptorType = b.descriptorType) ∧
    (∀ (st0 : DescriptorState) (s : VkDescriptorSet) (b e : Nat), 4 ≤ b ∨ 1 ≤ e →
      vkUpdateDescriptorSets st0 (descriptorWrites cfg (afterAllocation cfg drv app) i) s b e
        = st0 s b e) := by
  have hrun : createComputeDescriptorSets cfg drv app st
      = (none, afterAllocation cfg drv app,
          runUpdates st (updateCalls cfg (afterAllocation cfg drv app))) := by
    simp [createComputeDescriptorSets, hok]
  have hs := descriptorWrites_shape cfg (afterAllocation cfg drv app) i
  refine ⟨by rw [hrun], by rw [hrun], hs.2.2.2.2.2.2.2.2.1, hs.2.2.2.2.2.2.2.2.2 hi,
    hs.1, hs.2.1, hs.2.2.1, hs.2.2.2.1, hs.2.2.2.2.1, hs.2.2.2.2.2.1, hs.2.2.2.2.2.2.1,
    hs.2.2.2.2.2.2.2.1, ?_, ?_⟩
  · intro st0 b hb
    have hslots := slots_after_update cfg (afterAllocation cfg drv app) i st0
    simp [layoutInfo, layoutBindings] at hb
    rcases hb with g | g | g | g <;> subst g
    · exact ⟨_, hslots.1, rfl⟩
    · exact ⟨_, hslots.2.1, rfl⟩
    · exact ⟨_, hslots.2.2.1, rfl⟩
    · exact ⟨_, hslots.2.2.2, rfl⟩
  · intro st0 s b e h
    exact update_outside_layout cfg (afterAllocation cfg drv app) i st0 s b e h

/-- Two frames in flight on the sample driver, frame 1: the function returns normally,
its second update is the batch of frame 1 with destination bindings 0, 1, 2, 3, and in
the state it leaves, binding 1 of set 102 is a storage buffer and binding 4 is empty. -/
theorem writes_match_layout_two_frames :
    (createComputeDescriptorSets cfgTwoFrames sampleDriver sampleApp emptyDescriptors).1
      = none ∧
    (updateCalls cfgTwoFrames (afterAllocation cfgTwoFrames sampleDriver sampleApp))[1]?
      = some (descriptorWrites cfgTwoFrames
          (afterAllocation cfgTwoFrames sampleDriver sampleApp) 1) ∧
    (descriptorWrites cfgTwoFrames (afterAllocation cfgTwoFrames sampleDriver sampleApp)
        1).map (fun w => w.dstBinding) = [0, 1, 2, 3] ∧
    ((createComputeDescriptorSets cfgTwoFrames sampleDriver sampleApp emptyDescriptors).2.2
        102 1 0).map (fun d => d.descriptorType) = some VK_DESCRIPTOR_TYPE_STORAGE_BUFFER ∧
    (createComputeDescriptorSets cfgTwoFrames sampleDriver sampleApp emptyDescriptors).2.2
        102 4 0 = none :=
  have h := writes_match_layout cfgTwoFrames sampleDriver sampleApp emptyDescriptors 1
    (by decide) (by decide)
  ⟨h.1, h.2.2.2.1, h.2.2.2.2.2.1, by decide, by decide⟩

/-! ## The compute pipeline and its shader module -/

/-- On a normal return the shader module created at the start has been destroyed. -/
theorem shader_module_destroyed_on_success (drv : PipelineDriver) (app : VulkanApplication)
    (live : LiveShaderModules) (code : List Nat) (m : VkShaderModule)
    (hread : drv.readFile COMP_SHADER_PATH = .ok code)
    (hmod : drv.createShaderModule code = .ok m)
    (hok : (createComputePipeline drv app live).1 = none) :
    m ∉ (createComputePipeline drv app live).2.2 := by
  unfold createComputePipeline at hok ⊢
  simp only [hread, hmod] at hok ⊢
  split at hok
  · simp at hok
  · split at hok
    · simp at hok
    · rename_i h1 h2
      simp [h1, h2, vkDestroyShaderModule]

/-- When the function throws after the shader module was created, the module is still
live: neither throw statement is preceded by vkDestroyShaderModule. -/
theorem shader_module_live_on_failure (drv : PipelineDriver) (app : VulkanApplication)
    (live : LiveShaderModules) (code : List Nat) (m : VkShaderModule)
    (hread : drv.readFile COMP_SHADER_PATH = .ok code)
    (hmod : drv.createShaderModule code = .ok m)
    (hfail : (createComputePipeline drv app live).1 ≠ none) :
    m ∈ (createComputePipeline drv app live).2.2 := by
  unfold createComputePipeline at hfail ⊢
  simp only [hread, hmod] at hfail ⊢
  split
  · simp
  · split
    · simp
    · rename_i h1 h2
      simp [h1, h2] at hfail

/-- C8 at the failing inputs: when vkCreatePipelineLayout fails, the function throws
PIPELINE_LAYOUT_CREATION_FAILED and shader module 90 is still live; when
vkCreateComputePipelines fails, it throws PIPELINE_CREATION_FAILED and module 90 is
still live; only on the successful path has module 90 been destroyed. -/
theorem shader_module_leaks_when_creation_fails :
    (createComputePipeline pipelineDriverLayoutFails sampleApp []).1
        = some CREATE_COMPUTE_PIPELINE_PIPELINE_LAYOUT_CREATION_FAILED ∧
    (createComputePipeline pipelineDriverLayoutFails sampleApp []).2.2 = [90] ∧
    (createComputePipeline pipelineDriverPipelineFails sampleApp []).1
        = some CREATE_COMPUTE_PIPELINE_PIPELINE_CREATION_FAILED ∧
    (createComputePipeline pipelineDriverPipelineFails sampleApp []).2.2 = [90] ∧
    (createComputePipeline pipelineDriverOk sampleApp []).1 = none ∧
    (createComputePipeline pipelineDriverOk sampleApp []).2.2 = [] := by
  decide

/-! ## Recording the compute command buffer -/

/-- The three commands of lines 216-220 for an application object. -/
theorem bindAndDispatch_recording (app : VulkanApplication) (cb : CommandBuffer)
    (h : cb.state = Recording) :
    bindAndDispatch app cb =
      (none,
        { cb with
          commands := cb.commands ++
            [ Command.bindPipeline VK_PIPELINE_BIND_POINT_COMPUTE app.computePipeline,
              Command.bindDescriptorSets VK_PIPELINE_BIND_POINT_COMPUTE
                app.computePipelineLayout 0 1
                [at_ app.computeDescriptorSets app.currentFrame] 0 [],
              Command.dispatch app.swapChainExtent.width.val
                app.swapChainExtent.height.val 1 ] }) := by
  simp [bindAndDispatch, vkCmdBindPipeline, vkCmdBindDescriptorSets, vkCmdDispatch, vkCmd, h,
    u32_of_lt app.swapChainExtent.width.isLt, u32_of_lt app.swapChainExtent.height.isLt]

/-- The result of recordComputeCommandBuffer when the buffer is Initial and the device
has no failure of its own. -/
theorem record_success (dev : DeviceFaults) (app : VulkanApplication) (cb : CommandBuffer)
    (hinit : cb.state = Initial) (hb : dev.beginResult = VK_SUCCESS)
    (he : dev.endResult = VK_SUCCESS) :
    recordComputeCommandBuffer dev app cb =
      (none,
        { state := Ended, flags := 0,
          commands :=
            [ Command.bindPipeline VK_PIPELINE_BIND_POINT_COMPUTE app.computePipeline,
              Command.bindDescriptorSets VK_PIPELINE_BIND_POINT_COMPUTE
                app.computePipelineLayout 0 1
                [at_ app.computeDescriptorSets app.currentFrame] 0 [],
              Command.dispatch app.swapChainExtent.width.val
                app.swapChainExtent.height.val 1 ] }) := by
  have hbegin : vkBeginCommandBuffer dev cb beginInfo
      = (VK_SUCCESS, { state := Recording, flags := 0, commands := [] }) := by
    simp [vkBeginCommandBuffer, hinit, hb, beginInfo]
  unfold recordComputeCommandBuffer
  rw [hbegin]
  simp [bindAndDispatch_recording, endRecording, vkEndCommandBuffer, he]

/-- A normal return of recordComputeCommandBuffer happens only when the buffer was
Initial and both begin and end succeeded on the device. -/
theorem record_success_inv (dev : DeviceFaults) (app : VulkanApplication)
    (cb : CommandBuffer) (hok : (recordComputeCommandBuffer dev app cb).1 = none) :
    cb.state = Initial ∧ dev.beginResult = VK_SUCCESS ∧ dev.endResult = VK_SUCCESS := by
  by_cases hinit : cb.state = Initial
  · by_cases hb : dev.beginResult = VK_SUCCESS
    · by_cases he : dev.endResult = VK_SUCCESS
      · exact ⟨hinit, hb, he⟩
      · exfalso
        have hbegin : vkBeginCommandBuffer dev cb beginInfo
            = (VK_SUCCESS, { state := Recording, flags := 0, commands := [] }) := by
          simp [vkBeginCommandBuffer, hinit, hb, beginInfo]
        unfold recordComputeCommandBuffer at hok
        rw [hbegin] at hok
        simp [bindAndDispatch_recording, endRecording, vkEndCommandBuffer, he] at hok
    · exfalso
      simp [recordComputeCommandBuffer, vkBeginCommandBuffer, hinit, hb] at hok
  · exfalso
    simp [recordComputeCommandBuffer, vkBeginCommandBuffer, hinit,
      VK_ERROR_VALIDATION_FAILED_EXT, VK_SUCCESS] at hok

/-- C6: a recordComputeCommandBuffer that returns normally has recorded exactly one
dispatch command, and its grid is (W, H, 1) for the extent (W, H) the application
object holds at the call; any dispatch found in the buffer has that grid, with z = 1;
and two successful recordings with the same extent record the same dispatch. -/
theorem dispatch_grid (dev : DeviceFaults) (app : VulkanApplication) (cb : CommandBuffer)
    (hok : (recordComputeCommandBuffer dev app cb).1 = none) :
    (recordComputeCommandBuffer dev app cb).2.commands.filter isDispatch
      = [Command.dispatch app.swapChainExtent.width.val app.swapChainExtent.height.val 1] ∧
    (∀ x y z, Command.dispatch x y z ∈ (recordComputeCommandBuffer dev app cb).2.commands →
      x = app.swapChainExtent.width.val ∧ y = app.swapChainExtent.height.val ∧ z = 1) ∧
    (∀ (dev2 : DeviceFaults) (app2 : VulkanApplication) (cb2 : CommandBuffer),
      (recordComputeCommandBuffer dev2 app2 cb2).1 = none →
      app2.swapChainExtent = app.swapChainExtent →
      (recordComputeCommandBuffer dev2 app2 cb2).2.commands.filter isDispatch
        = (recordComputeCommandBuffer dev app cb).2.commands.filter isDispatch) := by
  obtain ⟨hinit, hb, he⟩ := record_success_inv dev app cb hok
  rw [record_success dev app cb hinit hb he]
  refine ⟨by simp [isDispatch], ?_, ?_⟩
  · intro x y z hmem
    simp at hmem
    exact hmem
  · intro dev2 app2 cb2 hok2 hext
    obtain ⟨hinit2, hb2, he2⟩ := record_success_inv dev2 app2 cb2 hok2
    rw [record_success dev2 app2 cb2 hinit2 hb2 he2]
    simp [isDispatch, hext]

/-- The sample application with its 800 x 600 target: one dispatch, grid (800, 600, 1). -/
theorem dispatch_grid_800_600 :
    (recordComputeCommandBuffer noFaults sampleAppReady freshCommandBuffer).1 = none ∧
    (recordComputeCommandBuffer noFaults sampleAppReady freshCommandBuffer).2.commands.filter
        isDispatch = [Command.dispatch 800 600 1] :=
  ⟨by decide, (dispatch_grid noFaults sampleAppReady freshCommandBuffer (by decide)).1⟩

/-- C7: on a command buffer in the Initial state, when vkBeginCommandBuffer and
vkEndCommandBuffer both answer VK_SUCCESS, recordComputeCommandBuffer returns normally
and leaves the buffer Ended with exactly three commands, in this order: bind the
compute pipeline at the compute bind point; bind one descriptor set, the one at index
currentFrame of computeDescriptorSets, as set 0 with the compute pipeline layout and
no dynamic offsets; dispatch with the grid (width, height, 1). -/
theorem record_sequence (dev : DeviceFaults) (app : VulkanApplication) (cb : CommandBuffer)
    (hinit : cb.state = Initial)
    (hbegin : (vkBeginCommandBuffer dev cb beginInfo).1 = VK_SUCCESS)
    (hend : (vkEndCommandBuffer dev
      (bindAndDispatch app (vkBeginCommandBuffer dev cb beginInfo).2).2).1 = VK_SUCCESS) :
    (recordComputeCommandBuffer dev app cb).1 = none ∧
    (recordComputeCommandBuffer dev app cb).2.state = Ended ∧
    (recordComputeCommandBuffer dev app cb).2.commands =
      [ Command.bindPipeline VK_PIPELINE_BIND_POINT_COMPUTE app.computePipeline,
        Command.bindDescriptorSets VK_PIPELINE_BIND_POINT_COMPUTE
          app.computePipelineLayout 0 1
          [at_ app.computeDescriptorSets app.currentFrame] 0 [],
        Command.dispatch app.swapChainExtent.width.val
          app.swapChainExtent.height.val 1 ] := by
  have hb : dev.beginResult = VK_SUCCESS := by
    by_cases h : dev.beginResult = VK_SUCCESS
    · exact h
    · simp [vkBeginCommandBuffer, hinit, h] at hbegin
  have hbegin2 : vkBeginCommandBuffer dev cb beginInfo
      = (VK_SUCCESS, { state := Recording, flags := 0, commands := [] }) := by
    simp [vkBeginCommandBuffer, hinit, hb, beginInfo]
  have he : dev.endResult = VK_SUCCESS := by
    by_cases h : dev.endResult = VK_SUCCESS
    · exact h
    · rw [hbegin2] at hend
      simp [bindAndDispatch_recording, vkEndCommandBuffer, h] at hend
  rw [record_success dev app cb hinit hb he]
  exact ⟨rfl, rfl, rfl⟩

/-- Scenario A: two frames in flight, currentFrame = 0, extent (800, 600): the buffer
ends Ended and references pipeline 80, layout 70 and set[0] = 101 with grid
(800, 600, 1). -/
theorem record_sequence_scenario_A :
    sampleAppReady.computeDescriptorSets.length = 2 ∧
    sampleAppReady.currentFrame = 0 ∧
    (recordComputeCommandBuffer noFaults sampleAppReady freshCommandBuffer).1 = none ∧
    (recordComputeCommandBuffer noFaults sampleAppReady freshCommandBuffer).2.state = Ended ∧
    (recordComputeCommandBuffer noFaults sampleAppReady freshCommandBuffer).2.commands =
      [ Command.bindPipeline VK_PIPELINE_BIND_POINT_COMPUTE 80,
        Command.bindDescriptorSets VK_PIPELINE_BIND_POINT_COMPUTE 70 0 1 [101] 0 [],
        Command.dispatch 800 600 1 ] :=
  have h := record_sequence noFaults sampleAppReady freshCommandBuffer
    (by decide) (by decide) (by decide)
  ⟨by decide, by decide, h.1, h.2.1, h.2.2⟩

end VulkanCompute
